import Mathlib

/-!
Verification of the Wikipedia outline service
(`src/wikipedia_outline_api.py`) against its specification.

The service is a single Flask endpoint `GET /api/outline?country=...`
(function `get_wikipedia_outline`, lines 22-133).  The HTTP client
(`requests`) and the HTML parser (BeautifulSoup) are external
collaborators, so the embedding takes as input

  * the value of the `country` query parameter (`Option String`:
    `none` when absent), and
  * the outcome of the upstream fetch (`FetchOutcome`): either a
    response with a status code and an already-parsed HTML document,
    or a timeout / connection failure carrying the exception text.

Parsed HTML is embedded at exactly the granularity the code inspects:
the two candidate container divs (`id="content"` / `id="bodyContent"`),
the `h1 id="firstHeading"` text inside the resolved container, and the
list of `h2`..`h6` elements in document order, each a flat sequence of
inline nodes (text pieces and `span` elements with their class lists).
-/

namespace WikiApi

/-- An inline node inside a heading element: a text fragment, or a
`span` element with its class list and inner text (BeautifulSoup's
`get_text` concatenates text of all descendants, so a span is kept as
its class list plus its total inner text). -/
inductive InlineNode : Type
  | text (s : String)
  | span (classes : List String) (inner : String)
  deriving DecidableEq, Repr

/-- A parsed heading element returned by
`content_div.find_all(['h2', 'h3', 'h4', 'h5', 'h6'])`:
`level` is `int(tag.name[1])` (line 95), `nodes` its inline children. -/
structure Heading where
  level : Nat
  nodes : List InlineNode
  deriving DecidableEq, Repr

/-- A content container div: the text of `h1 id="firstHeading"` found
inside it (line 79), if any, and the `h2`..`h6` elements inside it in
document order (line 89). -/
structure ContentDiv where
  firstHeading : Option String
  headings : List Heading
  deriving DecidableEq, Repr

/-- The parsed page: the optional `div id="content"` and the optional
`div id="bodyContent"` (lines 62-65). -/
structure HtmlDoc where
  content : Option ContentDiv
  bodyContent : Option ContentDiv
  deriving DecidableEq, Repr

/-- Outcome of `requests.get(wikipedia_url, headers=headers, timeout=10)`
(line 42).  A `response` carries the HTTP status, the string that the
`HTTPError` raised by `raise_for_status()` would render (used only in
the non-404 error message, line 51), and the parsed body.  `timeout`
and `connectionError` are the `requests.exceptions.RequestException`
cases (line 53), carrying the exception text. -/
inductive FetchOutcome : Type
  | response (status : Nat) (excStr : String) (body : HtmlDoc)
  | timeout (excStr : String)
  | connectionError (excStr : String)
  deriving DecidableEq, Repr

/-- The endpoint's response: a JSON error with an HTTP status and the
`error` field, or a 200 `text/markdown` body (lines 130-133). -/
inductive ApiResponse : Type
  | jsonError (status : Nat) (error : String)
  | markdown (body : String)
  deriving DecidableEq, Repr

/-- Model of Python `str.strip()`: drop leading and trailing
whitespace characters. -/
def pyStrip (s : String) : String :=
  String.mk (((s.toList.dropWhile Char.isWhitespace).reverse.dropWhile
    Char.isWhitespace).reverse)

/-- Model of BeautifulSoup `get_text()` on a heading's inline nodes:
concatenation of every node's text. -/
def getText (nodes : List InlineNode) : String :=
  String.join (nodes.map (fun n =>
    match n with
    | InlineNode.text s => s
    | InlineNode.span _ inner => inner))

/-- Whether a node is the editor-control markup targeted by
`tag.find('span', class_='mw-editsection')` (line 106): a `span`
whose class list contains `mw-editsection`. -/
def isEditSpan (n : InlineNode) : Bool :=
  match n with
  | InlineNode.text _ => false
  | InlineNode.span classes _ => decide ("mw-editsection" ∈ classes)

/-- Model of lines 106-108: `tag.find(...)` locates the first
`mw-editsection` span and `extract()` removes it; later matching spans
are untouched. -/
def extractFirstEditSpan : List InlineNode → List InlineNode
  | [] => []
  | n :: rest =>
    if isEditSpan n then rest else n :: extractFirstEditSpan rest

/-- The denylist of line 114. -/
def nonContentHeadings : List String :=
  ["Contents", "Welcome to Wikipedia", "See also", "References",
   "External links", "Further reading", "Notes", "Bibliography"]

/-- `heading_text = tag.get_text().strip()` after the edit-span
extraction (lines 106-111). -/
def cleanHeadingText (h : Heading) : String :=
  pyStrip (getText (extractFirstEditSpan h.nodes))

/-- `'#' * markdown_level` (line 103). -/
def hashes (n : Nat) : String :=
  String.mk (List.replicate n '#')

/-- Lines 91-118 for one structural heading tag: `markdown_level =
html_level + 1`, edit-span removal, text cleanup, the skip of empty or
denylisted text (`continue`), and the `f"{markdown_prefix} {heading_text}"`
line. `none` means the loop body hit `continue`. -/
def renderHeading (h : Heading) : Option String :=
  if cleanHeadingText h = "" ∨ cleanHeadingText h ∈ nonContentHeadings then
    none
  else
    some (hashes (h.level + 1) ++ " " ++ cleanHeadingText h)

/-- Lines 81-85: if the `firstHeading` h1 exists and its stripped text
is truthy (non-empty), the `## {article_title}` line. -/
def titleLines (d : ContentDiv) : List String :=
  match d.firstHeading with
  | none => []
  | some t => if pyStrip t = "" then [] else ["## " ++ pyStrip t]

/-- The full `outline_lines` list (lines 72-118): the fixed
`# Contents` line, the optional title line, then the rendered
structural headings in document order. -/
def outlineLines (d : ContentDiv) : List String :=
  ["# Contents"] ++ titleLines d ++ d.headings.filterMap renderHeading

/-- `markdown_outline = '\n'.join(outline_lines)` (line 121). -/
def markdownOutline (d : ContentDiv) : String :=
  String.intercalate "\n" (outlineLines d)

/-- The fixed 400 error body (lines 30-33). -/
def missingParamMsg : String :=
  "Missing required query parameter: country"

/-- Hex digit for percent-encoding (uppercase, as `urllib.parse.quote`). -/
def hexDigit (n : Nat) : Char :=
  if n < 10 then Char.ofNat (48 + n) else Char.ofNat (65 + (n - 10))

/-- UTF-8 bytes of a character, as the byte values. -/
def utf8Bytes (c : Char) : List Nat :=
  let n := c.toNat
  if n < 128 then [n]
  else if n < 2048 then
    [192 + n / 64, 128 + n % 64]
  else if n < 65536 then
    [224 + n / 4096, 128 + n / 64 % 64, 128 + n % 64]
  else
    [240 + n / 262144, 128 + n / 4096 % 64, 128 + n / 64 % 64, 128 + n % 64]

/-- `urllib.parse.quote` keeps ASCII letters, digits, `_.-~` and the
default safe character `/`; every other character is percent-encoded
byte by byte. -/
def isQuoteSafe (c : Char) : Bool :=
  c.isAlpha || c.isDigit || c = '_' || c = '.' || c = '-' || c = '~' || c = '/'

/-- Model of `urllib.parse.quote(s)` (line 36). -/
def pyQuote (s : String) : String :=
  String.join (s.toList.map (fun c =>
    if isQuoteSafe c then
      String.singleton c
    else
      String.join ((utf8Bytes c).map (fun b =>
        String.mk ['%', hexDigit (b / 16), hexDigit (b % 16)]))))

/-- `country.replace(' ', '_')` (line 36): the pattern is a single
character, so this is a character-wise substitution. -/
def underscoreSlug (s : String) : String :=
  String.mk (s.toList.map (fun c => if c = ' ' then '_' else c))

/-- `wikipedia_url = f"https://en.wikipedia.org/wiki/{encoded_country}"`
(lines 36-37). -/
def wikipediaUrl (country : String) : String :=
  "https://en.wikipedia.org/wiki/" ++ pyQuote (underscoreSlug country)

/-- The 404 error body of lines 47-49. -/
def notFoundMsg (country : String) : String :=
  "Wikipedia page not found for \x27" ++ country ++ "\x27. URL: " ++
    wikipediaUrl country

/-- The 500 error body of lines 50-52, with the rendered exception. -/
def httpErrorMsg (excStr : String) : String :=
  "HTTP Error fetching content: " ++ excStr

/-- The 500 error body of lines 54-56, with the rendered exception. -/
def networkErrorMsg (excStr : String) : String :=
  "Network Error during content fetch: " ++ excStr

/-- The 500 error body of lines 67-69. -/
def noContentBlockMsg : String :=
  "Could not find the main content block on the Wikipedia page."

/-- The 404 error body of lines 125-127. -/
def insufficientMsg : String :=
  "Successfully fetched the page, but could not extract sufficient content headings beyond the title."

/-- The `timeout=10` argument of line 42, in seconds. -/
def requestTimeoutSeconds : Nat := 10

/-- Lines 62-69: `soup.find('div', {'id': 'content'})` first, falling
back to `soup.find('div', {'id': 'bodyContent'})`. -/
def resolveContentDiv (doc : HtmlDoc) : Option ContentDiv :=
  match doc.content with
  | some d => some d
  | none => doc.bodyContent

/-- Lines 120-133: join the outline, return the 404 `insufficientMsg`
error when `len(outline_lines) <= 2`, otherwise the markdown body. -/
def extractOutline (d : ContentDiv) : ApiResponse :=
  if (outlineLines d).length ≤ 2 then
    ApiResponse.jsonError 404 insufficientMsg
  else
    ApiResponse.markdown (markdownOutline d)

/-- Lines 58-69 followed by the outline generation: resolve the
container, a fatal 500 when both candidate divs are absent. -/
def extractHeadings (doc : HtmlDoc) : ApiResponse :=
  match resolveContentDiv doc with
  | none => ApiResponse.jsonError 500 noContentBlockMsg
  | some d => extractOutline d

/-- Lines 39-133 after validation: classify the fetch outcome.
`raise_for_status()` raises `HTTPError` exactly for statuses in
`[400, 600)`; the handler then answers 404 for an upstream 404 and 500
otherwise (lines 43-52).  A `Timeout` or `ConnectionError` lands in
the `RequestException` branch (lines 53-56).  Any other status falls
through to extraction (line 59 onwards). -/
def handleFetch (c : String) (fetch : FetchOutcome) : ApiResponse :=
  match fetch with
  | FetchOutcome.timeout e =>
      ApiResponse.jsonError 500 (networkErrorMsg e)
  | FetchOutcome.connectionError e =>
      ApiResponse.jsonError 500 (networkErrorMsg e)
  | FetchOutcome.response status e body =>
      if 400 ≤ status ∧ status < 600 then
        if status = 404 then
          ApiResponse.jsonError 404 (notFoundMsg c)
        else
          ApiResponse.jsonError 500 (httpErrorMsg e)
      else
        extractHeadings body

/-- The endpoint handler (lines 22-133).  `if not country` (line 30)
is true both for an absent parameter (`None`) and for the empty
string, Python's falsy cases for this value. -/
def get_wikipedia_outline (country : Option String)
    (fetch : FetchOutcome) : ApiResponse :=
  match country with
  | none => ApiResponse.jsonError 400 missingParamMsg
  | some c =>
    if c = "" then
      ApiResponse.jsonError 400 missingParamMsg
    else
      handleFetch c fetch

/-- The first `mw-editsection` span is removed from an inline-node
list in which it is preceded only by non-edit-span nodes; later nodes,
including further edit spans, are untouched. -/
theorem extractFirstEditSpan_append (pre post : List InlineNode)
    (s : InlineNode) (hpre : ∀ n ∈ pre, isEditSpan n = false)
    (hs : isEditSpan s = true) :
    extractFirstEditSpan (pre ++ s :: post) = pre ++ post := by
  induction pre with
  | nil => simp [extractFirstEditSpan, hs]
  | cons a as ih =>
    have ha : isEditSpan a = false := hpre a (by simp)
    have htail : ∀ n ∈ as, isEditSpan n = false :=
      fun n hn => hpre n (by simp [hn])
    simp [extractFirstEditSpan, ha, ih htail]

/-- A heading whose cleaned text is on the denylist renders to no line. -/
theorem renderHeading_denylisted (h : Heading)
    (hden : cleanHeadingText h ∈ nonContentHeadings) :
    renderHeading h = none := by
  unfold renderHeading
  exact if_pos (Or.inr hden)

/-- C1: the code does NOT return 200 whenever at least one structural
heading survives filtering.  On a page with no `firstHeading` h1 and a
single surviving `h2` ("History"), the heading renders ("### History",
so the count of structural lines beyond the fixed preamble is one, not
zero), yet `len(outline_lines) <= 2` holds (there is no title line, so
the list has two lines, not the "two fixed lines" the check assumes)
and the handler answers 404 `insufficientMsg` instead of a 200
Markdown response. -/
theorem c1_insufficient_check_divergence :
    renderHeading (Heading.mk 2 [InlineNode.text "History"])
      = some "### History" ∧
    outlineLines (ContentDiv.mk none [Heading.mk 2 [InlineNode.text "History"]])
      = ["# Contents", "### History"] ∧
    get_wikipedia_outline (some "Testland")
      (FetchOutcome.response 200 ""
        (HtmlDoc.mk (some (ContentDiv.mk none
          [Heading.mk 2 [InlineNode.text "History"]])) none))
      = ApiResponse.jsonError 404 insufficientMsg :=
  ⟨rfl, rfl, rfl⟩

/-- C2 counterexample: the denylist is not applied to the H1 title
heading.  On a page whose `h1 id="firstHeading"` text is the
denylisted term "References" (its cleaned, trimmed text is exactly
"References": there is no nested markup and nothing to trim), the 200
response still contains the line "## References". -/
theorem c2_counterexample :
    pyStrip "References" ∈ nonContentHeadings ∧
    get_wikipedia_outline (some "X")
      (FetchOutcome.response 200 ""
        (HtmlDoc.mk (some (ContentDiv.mk (some "References")
          [Heading.mk 2 [InlineNode.text "History"],
           Heading.mk 2 [InlineNode.text "Geography"]])) none))
      = ApiResponse.markdown "# Contents\n## References\n### History\n### Geography" ∧
    "## References" ∈ outlineLines (ContentDiv.mk (some "References")
        [Heading.mk 2 [InlineNode.text "History"],
         Heading.mk 2 [InlineNode.text "Geography"]]) :=
  ⟨by decide, rfl, by decide⟩

/-- C2 (amended): for every STRUCTURAL heading (the `h2`..`h6`
elements collected at line 89) whose cleaned, trimmed text exactly
equals a denylisted term, the heading contributes nothing to the
output: deleting it from the collected list leaves every outline line
unchanged.  (The H1 title heading is exempt from the denylist.) -/
theorem c2_structural_denylist_excluded (d : ContentDiv)
    (pre post : List Heading) (h : Heading)
    (hsplit : d.headings = pre ++ h :: post)
    (hden : cleanHeadingText h ∈ nonContentHeadings) :
    outlineLines (ContentDiv.mk d.firstHeading (pre ++ post)) = outlineLines d := by
  have hnone : renderHeading h = none := renderHeading_denylisted h hden
  simp [outlineLines, titleLines, hsplit, List.filterMap_append,
    List.filterMap_cons, hnone]

/-- C2 witness: deleting the denylisted structural heading
"References" from a concrete page leaves the outline unchanged. -/
theorem c2_witness :
    outlineLines (ContentDiv.mk (some "France")
        [Heading.mk 2 [InlineNode.text "History"]])
      = outlineLines (ContentDiv.mk (some "France")
        [Heading.mk 2 [InlineNode.text "References"],
         Heading.mk 2 [InlineNode.text "History"]]) :=
  c2_structural_denylist_excluded
    (ContentDiv.mk (some "France")
      [Heading.mk 2 [InlineNode.text "References"],
       Heading.mk 2 [InlineNode.text "History"]])
    [] [Heading.mk 2 [InlineNode.text "History"]]
    (Heading.mk 2 [InlineNode.text "References"])
    rfl (by decide)

/-- C3 counterexample: only the FIRST `mw-editsection` span is removed
(`tag.find` + `extract`, lines 106-108).  A heading containing two
such spans leaks the second span's text "[edit2]" into the rendered
output line. -/
theorem c3_counterexample :
    renderHeading (Heading.mk 2
      [InlineNode.span ["mw-editsection"] "[edit]",
       InlineNode.span ["mw-editsection"] "[edit2]",
       InlineNode.text "History"])
      = some ("### " ++ "[edit2]" ++ "History") :=
  rfl

/-- C3 (amended): the first `mw-editsection` span of a heading is
removed before the text is read: when such a span is preceded only by
non-edit-span nodes, the heading's cleaned text is exactly the
(stripped) concatenated text of the remaining nodes, so that span's
text never reaches the output.  (Spans after the first removed one are
retained.) -/
theorem c3_first_edit_span_stripped (lvl : Nat)
    (pre post : List InlineNode) (classes : List String) (inner : String)
    (hcls : "mw-editsection" ∈ classes)
    (hpre : ∀ n ∈ pre, isEditSpan n = false) :
    cleanHeadingText (Heading.mk lvl (pre ++ InlineNode.span classes inner :: post))
      = pyStrip (getText (pre ++ post)) := by
  unfold cleanHeadingText
  rw [show (Heading.mk lvl (pre ++ InlineNode.span classes inner :: post)).nodes
        = pre ++ InlineNode.span classes inner :: post from rfl,
      extractFirstEditSpan_append pre post _ hpre
        (by simp [isEditSpan, hcls])]

/-- C3 witness: a heading `<h2>Early <span class="mw-editsection">[edit]</span> history</h2>`
cleans to the stripped text of its non-edit-span nodes. -/
theorem c3_witness :
    cleanHeadingText (Heading.mk 2
      ([InlineNode.text "Early "] ++
        InlineNode.span ["mw-editsection"] "[edit]" ::
        [InlineNode.text " history"]))
      = pyStrip (getText ([InlineNode.text "Early "] ++ [InlineNode.text " history"])) :=
  c3_first_edit_span_stripped 2
    [InlineNode.text "Early "] [InlineNode.text " history"]
    ["mw-editsection"] "[edit]" (by decide) (by decide)

/-- The first outline line is always the fixed literal. -/
theorem outlineLines_head (d : ContentDiv) :
    (outlineLines d).head? = some "# Contents" :=
  rfl

/-- When the title heading is present with non-empty stripped text,
the second outline line is the title one level below the first. -/
theorem outlineLines_second (d : ContentDiv) (t : String)
    (ht : d.firstHeading = some t) (hne : ¬ pyStrip t = "") :
    (outlineLines d).get? 1 = some ("## " ++ pyStrip t) := by
  simp [outlineLines, titleLines, ht, hne]

/-- C4: whenever a fetched document yields a 200 Markdown response,
the body is the newline-join of the outline of the document's OWN
resolved content container `d`: its first line is the fixed literal
`# Contents`, and, when that container's `firstHeading` h1 is present
with non-empty trimmed text, its second line is that title rendered
one level below (`## <title>`). -/
theorem c4_fixed_first_line_and_title (c : Option String) (st : Nat)
    (e : String) (doc : HtmlDoc) (d : ContentDiv) (body : String)
    (hres : resolveContentDiv doc = some d)
    (hmd : get_wikipedia_outline c (FetchOutcome.response st e doc)
      = ApiResponse.markdown body) :
    body = markdownOutline d ∧
    (outlineLines d).head? = some "# Contents" ∧
    ∀ t : String, d.firstHeading = some t → ¬ pyStrip t = "" →
      (outlineLines d).get? 1 = some ("## " ++ pyStrip t) := by
  cases c with
  | none => simp [get_wikipedia_outline] at hmd
  | some s =>
    by_cases hs : s = ""
    · rw [hs] at hmd
      simp [get_wikipedia_outline] at hmd
    · simp only [get_wikipedia_outline] at hmd
      rw [if_neg hs] at hmd
      simp only [handleFetch] at hmd
      by_cases h4 : 400 ≤ st ∧ st < 600
      · rw [if_pos h4] at hmd
        by_cases h404 : st = 404
        · rw [if_pos h404] at hmd
          exact ApiResponse.noConfusion hmd
        · rw [if_neg h404] at hmd
          exact ApiResponse.noConfusion hmd
      · rw [if_neg h4] at hmd
        simp only [extractHeadings, hres] at hmd
        unfold extractOutline at hmd
        by_cases hlen : (outlineLines d).length ≤ 2
        · rw [if_pos hlen] at hmd
          exact ApiResponse.noConfusion hmd
        · rw [if_neg hlen] at hmd
          injection hmd with hb
          exact ⟨hb.symm, outlineLines_head d,
            fun t ht hne => outlineLines_second d t ht hne⟩

/-- C4 witness: a concrete fetched page whose resolved container has
`firstHeading` "France"; the 200 body is that container's outline,
beginning `# Contents` with the `## France` title line second. -/
theorem c4_witness :
    "# Contents\n## France\n### History\n### Geography"
      = markdownOutline (ContentDiv.mk (some "France")
          [Heading.mk 2 [InlineNode.text "History"],
           Heading.mk 2 [InlineNode.text "Geography"]]) ∧
    (outlineLines (ContentDiv.mk (some "France")
        [Heading.mk 2 [InlineNode.text "History"],
         Heading.mk 2 [InlineNode.text "Geography"]])).head?
      = some "# Contents" ∧
    ∀ t : String,
      (ContentDiv.mk (some "France")
        [Heading.mk 2 [InlineNode.text "History"],
         Heading.mk 2 [InlineNode.text "Geography"]]).firstHeading = some t →
      ¬ pyStrip t = "" →
      (outlineLines (ContentDiv.mk (some "France")
          [Heading.mk 2 [InlineNode.text "History"],
           Heading.mk 2 [InlineNode.text "Geography"]])).get? 1
        = some ("## " ++ pyStrip t) :=
  c4_fixed_first_line_and_title (some "France") 200 ""
    (HtmlDoc.mk (some (ContentDiv.mk (some "France")
      [Heading.mk 2 [InlineNode.text "History"],
       Heading.mk 2 [InlineNode.text "Geography"]])) none)
    (ContentDiv.mk (some "France")
      [Heading.mk 2 [InlineNode.text "History"],
       Heading.mk 2 [InlineNode.text "Geography"]])
    "# Contents\n## France\n### History\n### Geography" rfl rfl

/-- C5: every rendered structural heading line is exactly the
`'#' * (htmlLevel + 1)` markers followed by a space and the cleaned
text; the level is not clamped, so an H6 heading yields a 7-hash
line. -/
theorem c5_level_shift (h : Heading) (line : String)
    (hr : renderHeading h = some line) :
    line = hashes (h.level + 1) ++ " " ++ cleanHeadingText h ∧
    (h.level = 6 → line = "#######" ++ " " ++ cleanHeadingText h) := by
  unfold renderHeading at hr
  by_cases hcond : cleanHeadingText h = "" ∨ cleanHeadingText h ∈ nonContentHeadings
  · rw [if_pos hcond] at hr
    exact Option.noConfusion hr
  · rw [if_neg hcond] at hr
    injection hr with hl
    refine ⟨hl.symm, fun h6 => ?_⟩
    rw [hl.symm, h6]
    rfl

/-- C5 witness: an HTML H6 heading renders with seven hash marks. -/
theorem c5_witness :
    "####### Deep" = hashes (6 + 1) ++ " " ++
      cleanHeadingText (Heading.mk 6 [InlineNode.text "Deep"]) :=
  (c5_level_shift (Heading.mk 6 [InlineNode.text "Deep"]) "####### Deep" rfl).1

/-- C6: classification of the upstream fetch for a valid request: an
upstream 404 yields the 404 not-found JSON error; any other 4xx/5xx
status yields a 500 JSON error; a timeout or connection failure yields
a 500 JSON error with the network-error message; a 2xx response passes
its parsed body to heading extraction; and the fetch timeout is 10
seconds. -/
theorem c6_upstream_classification (c : String) (st : Nat) (e : String)
    (doc : HtmlDoc) (hc : ¬ c = "") :
    (st = 404 →
      get_wikipedia_outline (some c) (FetchOutcome.response st e doc)
        = ApiResponse.jsonError 404 (notFoundMsg c)) ∧
    (400 ≤ st → st < 600 → ¬ st = 404 →
      get_wikipedia_outline (some c) (FetchOutcome.response st e doc)
        = ApiResponse.jsonError 500 (httpErrorMsg e)) ∧
    get_wikipedia_outline (some c) (FetchOutcome.timeout e)
      = ApiResponse.jsonError 500 (networkErrorMsg e) ∧
    get_wikipedia_outline (some c) (FetchOutcome.connectionError e)
      = ApiResponse.jsonError 500 (networkErrorMsg e) ∧
    (200 ≤ st → st < 300 →
      get_wikipedia_outline (some c) (FetchOutcome.response st e doc)
        = extractHeadings doc) ∧
    requestTimeoutSeconds = 10 := by
  refine ⟨?_, ?_, ?_, ?_, ?_, rfl⟩
  · intro h404
    subst h404
    simp [get_wikipedia_outline, handleFetch, hc]
  · intro hge hlt hne
    simp only [get_wikipedia_outline]
    rw [if_neg hc]
    simp only [handleFetch]
    rw [if_pos ⟨hge, hlt⟩, if_neg hne]
  · simp only [get_wikipedia_outline]
    rw [if_neg hc]
    rfl
  · simp only [get_wikipedia_outline]
    rw [if_neg hc]
    rfl
  · intro h200 h300
    simp only [get_wikipedia_outline]
    rw [if_neg hc]
    simp only [handleFetch]
    rw [if_neg (by omega : ¬ (400 ≤ st ∧ st < 600))]

/-- C6 witness: a concrete upstream 404 and a concrete timeout are
classified as the claim states. -/
theorem c6_witness :
    get_wikipedia_outline (some "France")
        (FetchOutcome.response 404 "err" (HtmlDoc.mk none none))
      = ApiResponse.jsonError 404 (notFoundMsg "France") ∧
    get_wikipedia_outline (some "France") (FetchOutcome.timeout "timed out")
      = ApiResponse.jsonError 500 (networkErrorMsg "timed out") :=
  ⟨(c6_upstream_classification "France" 404 "err" (HtmlDoc.mk none none)
      (by decide)).1 rfl,
   (c6_upstream_classification "France" 404 "timed out" (HtmlDoc.mk none none)
      (by decide)).2.2.1⟩

/-- C7: on a successfully fetched page, the `div id="content"`
container is used when present (even when `div id="bodyContent"` also
exists); otherwise `bodyContent` is the fallback; when both are
absent the request terminates with the 500 container error and no
outline is produced. -/
theorem c7_container_resolution (c : String) (st : Nat) (e : String)
    (dA dB : ContentDiv) (hc : ¬ c = "")
    (hok : ¬ (400 ≤ st ∧ st < 600)) :
    get_wikipedia_outline (some c)
        (FetchOutcome.response st e (HtmlDoc.mk (some dA) (some dB)))
      = extractOutline dA ∧
    get_wikipedia_outline (some c)
        (FetchOutcome.response st e (HtmlDoc.mk (some dA) none))
      = extractOutline dA ∧
    get_wikipedia_outline (some c)
        (FetchOutcome.response st e (HtmlDoc.mk none (some dB)))
      = extractOutline dB ∧
    get_wikipedia_outline (some c)
        (FetchOutcome.response st e (HtmlDoc.mk none none))
      = ApiResponse.jsonError 500 noContentBlockMsg := by
  refine ⟨?_, ?_, ?_, ?_⟩ <;>
  · simp only [get_wikipedia_outline]
    rw [if_neg hc]
    simp only [handleFetch]
    rw [if_neg hok]
    simp [extractHeadings, resolveContentDiv]

/-- C7 witness: concrete container-resolution outcomes. -/
theorem c7_witness :
    get_wikipedia_outline (some "France")
        (FetchOutcome.response 200 ""
          (HtmlDoc.mk (some (ContentDiv.mk none []))
            (some (ContentDiv.mk (some "B") []))))
      = extractOutline (ContentDiv.mk none []) ∧
    get_wikipedia_outline (some "France")
        (FetchOutcome.response 200 ""
          (HtmlDoc.mk (some (ContentDiv.mk none [])) none))
      = extractOutline (ContentDiv.mk none []) ∧
    get_wikipedia_outline (some "France")
        (FetchOutcome.response 200 ""
          (HtmlDoc.mk none (some (ContentDiv.mk (some "B") []))))
      = extractOutline (ContentDiv.mk (some "B") []) ∧
    get_wikipedia_outline (some "France")
        (FetchOutcome.response 200 "" (HtmlDoc.mk none none))
      = ApiResponse.jsonError 500 noContentBlockMsg :=
  c7_container_resolution "France" 200 ""
    (ContentDiv.mk none []) (ContentDiv.mk (some "B") [])
    (by decide) (by decide)

/-- C8: a request without the `country` parameter is answered 400 with
an error message that literally contains the parameter name
"country", and the answer does not depend on the fetch outcome (no
upstream fetch is consulted). -/
theorem c8_missing_param (f g : FetchOutcome) :
    get_wikipedia_outline none f = ApiResponse.jsonError 400 missingParamMsg ∧
    get_wikipedia_outline none f = get_wikipedia_outline none g ∧
    missingParamMsg = "Missing required query parameter: " ++ "country" ++ "" :=
  ⟨rfl, rfl, rfl⟩

/-- C9: the handler is deterministic in its inputs: identical requests
with identical upstream fetch outcomes produce identical responses
(there is no other state). -/
theorem c9_deterministic (c₁ c₂ : Option String) (f₁ f₂ : FetchOutcome)
    (hc : c₁ = c₂) (hf : f₁ = f₂) :
    get_wikipedia_outline c₁ f₁ = get_wikipedia_outline c₂ f₂ := by
  rw [hc, hf]

/-- C9 witness: two identical concrete requests agree. -/
theorem c9_witness :
    get_wikipedia_outline (some "France")
        (FetchOutcome.response 200 ""
          (HtmlDoc.mk (some (ContentDiv.mk (some "France")
            [Heading.mk 2 [InlineNode.text "History"],
             Heading.mk 2 [InlineNode.text "Geography"]])) none))
      = get_wikipedia_outline (some "France")
        (FetchOutcome.response 200 ""
          (HtmlDoc.mk (some (ContentDiv.mk (some "France")
            [Heading.mk 2 [InlineNode.text "History"],
             Heading.mk 2 [InlineNode.text "Geography"]])) none)) :=
  c9_deterministic (some "France") (some "France")
    (FetchOutcome.response 200 ""
      (HtmlDoc.mk (some (ContentDiv.mk (some "France")
        [Heading.mk 2 [InlineNode.text "History"],
         Heading.mk 2 [InlineNode.text "Geography"]])) none))
    (FetchOutcome.response 200 ""
      (HtmlDoc.mk (some (ContentDiv.mk (some "France")
        [Heading.mk 2 [InlineNode.text "History"],
         Heading.mk 2 [InlineNode.text "Geography"]])) none))
    rfl rfl

/-- C10: a present-but-empty `country` parameter is handled exactly
like an absent one: the same 400 JSON error, independent of (and
before) any fetch. -/
theorem c10_empty_country (f : FetchOutcome) :
    get_wikipedia_outline (some "") f
      = ApiResponse.jsonError 400 missingParamMsg ∧
    get_wikipedia_outline (some "") f = get_wikipedia_outline none f :=
  ⟨rfl, rfl⟩

end WikiApi
